import Mathlib

/-!
Verification of the sidebar registration data in
`src/doc/foxbox_taxonomy/devices/sidebar-items.js`.

The file consists of a single JavaScript statement
`initSidebarItems({...});` whose argument is a static object literal
mapping item categories to lists of `[name, summary]` pairs.  We embed
the JavaScript value shallowly as a JSON-like inductive type, transcribe
the argument verbatim, and prove the structural properties claimed of it.
-/

/-- A JavaScript value, restricted to the shapes occurring in the file:
strings, arrays and objects (association lists of string keys). -/
inductive JsValue where
  | str (s : String)
  | arr (elems : List JsValue)
  | obj (fields : List (String × JsValue))

/-- A top-level JavaScript statement; the file only contains a single
expression statement calling a function on argument values. -/
inductive JsStmt where
  | exprCall (fn : String) (args : List JsValue)

/-- The callee name of a call statement. -/
def stmtCallee : JsStmt → String
  | .exprCall fn _ => fn

/-- The object literal passed to `initSidebarItems`, transcribed verbatim
from `src/doc/foxbox_taxonomy/devices/sidebar-items.js`. -/
def sidebarItemsArg : JsValue :=
  .obj
    [ ("enum",
        .arr
          [ .arr [ .str "ChannelKind",
                   .str "The kind of the service, i.e. a strongly-typed description of _what_ the service can do. Used both for locating services (e.g. \"I need a clock\" or \"I need something that can provide pictures\") and for determining the data structure that these services can provide or consume." ] ]),
      ("struct",
        .arr
          [ .arr [ .str "Channel",
                   .str "An channel represents a single place where data can enter or leave a device. Note that channels support either a single kind of getter or a single kind of setter. Devices that support both getters or setters, or several kinds of getters, or several kinds of setters, are represented as nodes containing several channels." ],
            .arr [ .str "Getter",
                   .str "A getter operation available on a channel." ],
            .arr [ .str "Node",
                   .str "Metadata on a node. A node is a device or collection of devices that may offer services. The FoxBox itself a node offering services such as a clock, communication with the user through her smart devices, etc." ],
            .arr [ .str "NodeId",
                   .str "A marker for Id. Only useful for writing `Id<NodeId>`." ],
            .arr [ .str "Setter",
                   .str "An setter operation available on an channel." ] ]),
      ("trait",
        .arr
          [ .arr [ .str "IOMechanism",
                   .str "The communication mechanism used by the channel." ] ]) ]

/-- The whole file: a single statement calling `initSidebarItems` with
the registration object. -/
def sidebarItemsFile : List JsStmt :=
  [ .exprCall "initSidebarItems" [sidebarItemsArg] ]

/-- The field list of an object value (empty for non-objects). -/
def objFields : JsValue → List (String × JsValue)
  | .obj fields => fields
  | _ => []

/-- The keys of an object value, in source order. -/
def objKeys (v : JsValue) : List String :=
  (objFields v).map Prod.fst

/-- The elements of an array value (empty for non-arrays). -/
def valueEntries : JsValue → List JsValue
  | .arr es => es
  | _ => []

/-- Whether a value is an array of exactly two strings, the shape of a
`[name, summary]` registration entry. -/
def isStringPair : JsValue → Bool
  | .arr [.str _, .str _] => true
  | _ => false

/-- Whether a value is an array of registration entries. -/
def isEntryList : JsValue → Bool
  | .arr es => es.all isStringPair
  | _ => false

/-- The name (first component) of a registration entry. -/
def entryName : JsValue → Option String
  | .arr [.str n, .str _] => some n
  | _ => none

/-- The summary (second component) of a registration entry. -/
def entrySummary : JsValue → Option String
  | .arr [.str _, .str s] => some s
  | _ => none

/-- Look up a key in an object value. -/
def lookupField (v : JsValue) (k : String) : Option JsValue :=
  ((objFields v).find? (fun p => p.1 == k)).map Prod.snd

/-- The registration entries under a given category key of the sidebar
object. -/
def categoryEntries (k : String) : List JsValue :=
  match lookupField sidebarItemsArg k with
  | some v => valueEntries v
  | none => []

/-- The names registered under a given category key, in source order. -/
def categoryNames (k : String) : List String :=
  (categoryEntries k).filterMap entryName

/-- All names registered anywhere in the sidebar object, in source
order. -/
def allRegisteredNames : List String :=
  (objFields sidebarItemsArg).flatMap (fun p => (valueEntries p.2).filterMap entryName)

/-- All summaries registered anywhere in the sidebar object, in source
order. -/
def allSummaries : List String :=
  (objFields sidebarItemsArg).flatMap (fun p => (valueEntries p.2).filterMap entrySummary)

/-- The type names: the union (here, concatenation) of the `enum` and
`struct` entries. -/
def typeNames : List String :=
  categoryNames "enum" ++ categoryNames "struct"

/-- Strict lexicographic order on character lists, comparing codepoints;
a proper prefix is less than any of its extensions. -/
def charListLt : List Char → List Char → Bool
  | [], [] => false
  | [], _ :: _ => true
  | _ :: _, [] => false
  | a :: as, b :: bs => a < b || (a == b && charListLt as bs)

/-- Strict lexicographic (codepoint) order on strings. -/
def strLt (a b : String) : Bool :=
  charListLt a.data b.data

/-- Whether a list of strings is strictly ascending in the lexicographic
(codepoint) order on strings. -/
def strAscending : List String → Bool
  | [] => true
  | [_] => true
  | a :: b :: rest => strLt a b && strAscending (b :: rest)

/-- Whether a character is an ASCII letter. -/
def isAsciiLetter (c : Char) : Bool :=
  ('A' ≤ c && c ≤ 'Z') || ('a' ≤ c && c ≤ 'z')

/-- Whether a character is an ASCII digit. -/
def isAsciiDigit (c : Char) : Bool :=
  '0' ≤ c && c ≤ '9'

/-- Whether a string is a valid simple Rust identifier: non-empty,
starting with an ASCII letter, and containing only ASCII letters and
digits. -/
def isValidRustIdent (s : String) : Bool :=
  match s.data with
  | [] => false
  | c :: cs => isAsciiLetter c && cs.all (fun d => isAsciiLetter d || isAsciiDigit d)

/-- C1: the registration object passed to `initSidebarItems` has exactly
the three keys `enum`, `struct` and `trait` — no more and no fewer. -/
theorem c1_keys_exact : objKeys sidebarItemsArg = ["enum", "struct", "trait"] := by
  decide

/-- C2: for every category key in the registration object, the associated
value is an ordered sequence in which every element is a pair of exactly
two strings. -/
theorem c2_values_are_pair_lists :
    (objFields sidebarItemsArg).all (fun p => isEntryList p.2) = true := by
  decide

/-- C3: within each category the registered names are pairwise distinct,
and the name sets are exactly ChannelKind for `enum`; Channel, Getter,
Node, NodeId, Setter for `struct`; and IOMechanism for `trait`. -/
theorem c3_names_per_category :
    categoryNames "enum" = ["ChannelKind"] ∧
    categoryNames "struct" = ["Channel", "Getter", "Node", "NodeId", "Setter"] ∧
    categoryNames "trait" = ["IOMechanism"] ∧
    (categoryNames "enum").Nodup ∧
    (categoryNames "struct").Nodup ∧
    (categoryNames "trait").Nodup := by
  decide

/-- C4: every summary string in every category of the registration object
is a non-empty string. -/
theorem c4_summaries_nonempty :
    allSummaries.all (fun s => !s.data.isEmpty) = true := by
  decide

/-- C5 counterexample: the union of the `enum` and `struct` entries
registers six names, not five as the claim states (it lists six names —
ChannelKind, Channel, Getter, Node, NodeId, Setter — while asserting
there are exactly five). -/
theorem c5_counterexample :
    typeNames.length = 6 ∧ ¬ typeNames.length = 5 := by
  decide

/-- C5 (amended): the file consists of a single statement, a call to
`initSidebarItems` with one object literal, registering exactly six type
names — ChannelKind, Channel, Getter, Node, NodeId, Setter (the union of
the `enum` and `struct` entries) — and exactly one capability name,
IOMechanism (the sole `trait` entry). -/
theorem c5_amended_six_type_names :
    sidebarItemsFile.map stmtCallee = ["initSidebarItems"] ∧
    typeNames = ["ChannelKind", "Channel", "Getter", "Node", "NodeId", "Setter"] ∧
    categoryNames "trait" = ["IOMechanism"] := by
  decide

/-- C6 counterexample: the summary registered for NodeId contains a raw
less-than and a raw greater-than character, so not every summary is free
of raw angle brackets. -/
theorem c6_counterexample :
    "A marker for Id. Only useful for writing `Id<NodeId>`." ∈ allSummaries ∧
    "A marker for Id. Only useful for writing `Id<NodeId>`.".data.contains '<' = true ∧
    "A marker for Id. Only useful for writing `Id<NodeId>`.".data.contains '>' = true := by
  decide

/-- C6 (amended): every summary string is a single line — it contains no
newline character — and contains no ampersand at all (so any `&` occurs
only as part of an HTML entity, vacuously); raw less-than and
greater-than characters do occur (in the NodeId summary). -/
theorem c6_amended_single_line_no_ampersand :
    allSummaries.all (fun s => !s.data.contains '\n' && !s.data.contains '&') = true := by
  decide

/-- C7: within every category the name sequence is strictly ascending in
lexicographic (codepoint) order; in particular the `struct` names appear
as Channel, Getter, Node, NodeId, Setter. -/
theorem c7_names_sorted :
    strAscending (categoryNames "enum") = true ∧
    strAscending (categoryNames "struct") = true ∧
    strAscending (categoryNames "trait") = true ∧
    categoryNames "struct" = ["Channel", "Getter", "Node", "NodeId", "Setter"] := by
  decide

/-- C8: the registered names are globally unique across all three
categories: no name appears twice anywhere in the registration object. -/
theorem c8_names_globally_unique : allRegisteredNames.Nodup := by
  decide

/-- C9: every registered name is a non-empty string that is a valid
simple Rust identifier: it starts with an ASCII letter and contains only
ASCII letters and digits. -/
theorem c9_names_valid_identifiers :
    allRegisteredNames.all isValidRustIdent = true := by
  decide
